import Mathlib

/-!
Shallow embedding of the OpenKJ CDG decoder
(src/OpenKJ/libCDG/src/libCDG.cpp, class CdgParser).

The framebuffer (the 300x216 Indexed8 QImage `m_image`) is modelled as a
total function from (line, column) to the stored byte; a QImage of width
300 in Format_Indexed8 has bytesPerLine() = 300 (300 is a multiple of 4,
so no scanline padding) and bytesPerPixel = 1, so byte offsets in the
source map one-to-one onto (line, column) pairs.  The palette
(`m_image.colorTable()`, 16 QRgb entries) is a function from index to the
QRgb value.  Machine arithmetic notes:

* The source computes times and frame indices in IEEE-754 floating point:
  `position()` stores `(m_position / 300.0) * 1000` in a float (binary32,
  24-bit significand) before truncating to int, and `videoFrameByTime` /
  `canSkipFrameByTime` compute `ms * ((float)m_tempo / 100.0)` in double
  (binary64, 53-bit significand).  These computations are modelled
  faithfully: `rnDyadic` below implements IEEE round-to-nearest, ties to
  even, at a given significand width, on exact nonnegative rationals
  (num/den pairs of naturals); every intermediate value arising here lies
  far inside the normal range of its format, so overflow and subnormal
  handling never come into play.  Each C++ expression is mirrored rounding
  by rounding: conversions int-to-double and unsigned-to-double are exact
  below 2^53 but still modelled as roundings, int-to-float as a binary32
  rounding, and each arithmetic operation rounds its exact rational result
  to the width of its format.  Truncating conversions to int / size_t
  become rational floors (all values are nonnegative).
* `size_t` underflow (`frameno - 1`, `m_frames.size() - 1`) is modelled
  explicitly as addition of 2^64 - 1 modulo 2^64, and an out-of-range
  `std::vector::at` / `QVector::at` access is modelled by `List.get?`
  returning `none` (the C++ call throws or asserts).
-/

namespace LibCDG

/-- QRgb value of QColor(r, g, b).rgb(): 0xFF000000 + r * 0x10000 + g * 0x100 + b. -/
def qRgb (r g b : Nat) : Nat := 4278190080 + r * 65536 + g * 256 + b

/-- One 24-byte subcode packet (cdg::CDG_SubCode): command byte, instruction
byte, and the 16 data payload bytes (parity bytes are never read). -/
structure Packet where
  command : Nat
  instruction : Nat
  data : Nat → Nat

/-- A decoded output frame (QVideoFrame built from the safe area converted to
RGB32): the resolved pixel function and the start time in milliseconds. -/
structure Frame where
  image : Nat → Nat → Nat
  startTime : Nat

/-- The CdgParser state: every member variable of the class that the decoder
logic reads or writes.  `cdgDataSize` is the byte count of `m_cdgData`. -/
structure CdgState where
  isOpen : Bool
  needupdate : Bool
  lastCmdWasMempreset : Bool
  lastCDGCommandMS : Nat
  position : Nat
  curHOffset : Nat
  curVOffset : Nat
  cdgDataSize : Nat
  colorTable : Nat → Nat
  image : Nat → Nat → Nat
  frames : List Frame
  skip : List Bool
  tempo : Nat

/-- cdg::ScrollType: ScrollPreset fills vacated pixels, ScrollCopy wraps. -/
inductive ScrollType where
  | preset
  | copy
deriving DecidableEq

/-- cdg::TileBlockType: Normal replaces pixels, XOR xors them. -/
inductive TileBlockType where
  | normal
  | xorMode
deriving DecidableEq

/-- Decoded cdg::CdgScrollCmdData fields. -/
structure ScrollData where
  color : Nat
  hSCmd : Nat
  hSOffset : Nat
  vSCmd : Nat
  vSOffset : Nat

/-- State after CdgParser::reset(): all-black 16-entry palette
(QColor(0,0,0).rgb() = 0xFF000000), framebuffer filled with index 0, empty
frame and skip sequences, offsets cleared, tempo 100. -/
def initState : CdgState where
  isOpen := false
  needupdate := true
  lastCmdWasMempreset := false
  lastCDGCommandMS := 0
  position := 0
  curHOffset := 0
  curVOffset := 0
  cdgDataSize := 0
  colorTable := fun _ => qRgb 0 0 0
  image := fun _ _ => 0
  frames := []
  skip := []
  tempo := 100

/-- State after CdgParser::open on a byte array of n bytes: reset state
holding the data (the reserve calls do not affect observable state). -/
def openState (n : Nat) : CdgState :=
  { initState with cdgDataSize := n }

/-- Bit length of a natural number, written with an explicit fuel argument so
that it is structurally recursive and reduces inside the kernel; 400 bits of
fuel covers every number arising in the rounding computations below. -/
def bitsAux : Nat → Nat → Nat
  | 0, _ => 0
  | fuel + 1, n => if n = 0 then 0 else bitsAux fuel (n / 2) + 1

/-- Bit length: bitLen 0 = 0 and 2 ^ (bitLen n - 1) <= n < 2 ^ bitLen n. -/
def bitLen (n : Nat) : Nat := bitsAux 400 n

/-- A nonnegative dyadic rational m * 2 ^ t: the value of an IEEE-754 binary
floating-point number inside its normal range. -/
structure Dyadic where
  m : Nat
  t : Int

/-- IEEE-754 round to nearest, ties to even, of the exact nonnegative
rational num / den to a p-bit significand (p = 53 for binary64 doubles,
p = 24 for binary32 floats); exponent range is unbounded, which agrees with
the formats throughout the normal range the decoder's values occupy.  The
exponent e with 2 ^ e <= num / den < 2 ^ (e + 1) is found from the bit
lengths of num and den; the significand is the correctly rounded integer
scaling of the value into [2 ^ (p - 1), 2 ^ p). -/
def rnDyadic (p num den : Nat) : Dyadic :=
  if num = 0 then ⟨0, 0⟩
  else
    let a := bitLen num - 1
    let b := bitLen den - 1
    let e : Int := if den * 2 ^ a ≤ num * 2 ^ b then (a : Int) - b else (a : Int) - b - 1
    let shift : Int := (p : Int) - 1 - e
    let N := if 0 ≤ shift then num * 2 ^ shift.toNat else num
    let D := if 0 ≤ shift then den else den * 2 ^ (-shift).toNat
    let m0 := N / D
    let r := N % D
    let m := if 2 * r < D then m0
      else if D < 2 * r then m0 + 1
      else if m0 % 2 = 0 then m0 else m0 + 1
    ⟨m, -shift⟩

/-- Numerator of a dyadic value written as a fraction of naturals. -/
def Dyadic.numerator (x : Dyadic) : Nat :=
  if 0 ≤ x.t then x.m * 2 ^ x.t.toNat else x.m

/-- Denominator of a dyadic value written as a fraction of naturals. -/
def Dyadic.denominator (x : Dyadic) : Nat :=
  if 0 ≤ x.t then 1 else 2 ^ (-x.t).toNat

/-- Truncation of a nonnegative dyadic value to a natural number: the C and
C++ float-to-integer conversion (round toward zero). -/
def Dyadic.floorNat (x : Dyadic) : Nat := x.numerator / x.denominator

/-- The value CdgParser::position() computes for a given m_position, rounding
by rounding: m_position converts to double exactly, `m_position / 300.0` is a
binary64 division, `* 1000` a binary64 multiplication, the assignment to the
local `float fpos` a binary32 rounding, and `(int) fpos` truncates. -/
def positionFloatMs (k : Nat) : Nat :=
  let d1 := rnDyadic 53 k 300
  let d2 := rnDyadic 53 (d1.numerator * 1000) d1.denominator
  let f := rnDyadic 24 d2.numerator d2.denominator
  f.floorNat

/-- The double value of `ms * ((float)m_tempo / 100.0)` shared by
CdgParser::videoFrameByTime and CdgParser::canSkipFrameByTime: the tempo is
converted to a binary32 float, divided by 100.0 in binary64, and multiplied
by ms (converted to double) in binary64. -/
def floatScaled (tempo ms : Nat) : Dyadic :=
  let tf := rnDyadic 24 tempo 1
  let t1 := rnDyadic 53 tf.numerator (tf.denominator * 100)
  let msd := rnDyadic 53 ms 1
  rnDyadic 53 (msd.numerator * t1.numerator) (msd.denominator * t1.denominator)

/-- `int scaledMs = ms * ((float)m_tempo / 100.0)` of
CdgParser::canSkipFrameByTime: the double product truncated to int. -/
def floatScaledMs (tempo ms : Nat) : Nat := (floatScaled tempo ms).floorNat

/-- `(ms * ((float)m_tempo / 100.0)) / 40` of CdgParser::videoFrameByTime:
the double product is divided by 40 in binary64 and the quotient truncated
once on conversion to size_t. -/
def floatFrameIndex (tempo ms : Nat) : Nat :=
  let t2 := floatScaled tempo ms
  (rnDyadic 53 t2.numerator (t2.denominator * 40)).floorNat

/-- CdgParser::position(): (int)((m_position / 300.0) * 1000) with the
source's float arithmetic. -/
def positionMs (s : CdgState) : Nat :=
  positionFloatMs s.position

/-- CdgParser::duration(): m_cdgData.size() * 40. -/
def duration (s : CdgState) : Nat :=
  s.cdgDataSize * 40

/-- CdgParser::cmdMemoryPreset: skip when the previous dispatched command left
m_lastCmdWasMempreset set and the repeat nibble is nonzero, else fill the
whole 300x216 image with the color and set m_needupdate. -/
def cmdMemoryPreset (s : CdgState) (color rpt : Nat) : CdgState :=
  if s.lastCmdWasMempreset ∧ rpt ≠ 0 then s
  else
    { s with
      image := fun line col => if line < 216 ∧ col < 300 then color else s.image line col,
      needupdate := true }

/-- CdgParser::cmdBorderPreset: lines below 12 or above 202 are memset over the
full 300-byte scanline; other lines get bytes 0..5 (m_borderLRBytes) and
294..299 (m_borderRBytesOffset) set.  Sets m_needupdate. -/
def cmdBorderPreset (s : CdgState) (color : Nat) : CdgState :=
  { s with
    image := fun line col =>
      if line < 216 ∧ col < 300 then
        if line < 12 ∨ 202 < line then color
        else if col < 6 ∨ 293 < col then color
        else s.image line col
      else s.image line col,
    needupdate := true }

/-- Decoded cdg::CdgTileBlockData fields; `top` and `left` are already the
pixel coordinates row*12 and column*6 used by cmdTileBlock. -/
structure TileBlockData where
  color0 : Nat
  color1 : Nat
  top : Nat
  left : Nat
  tilePixels : Nat → Nat

/-- CdgParser::cmdTileBlock: for each of the 12 tile rows writes 6 pixels at
line top+y, columns left..left+5; the mask sequence 0x20..0x01 selects color1
on a set bit, color0 otherwise; XOR mode xors into the existing byte.
Sets m_needupdate. -/
def cmdTileBlock (s : CdgState) (t : TileBlockData) (ty : TileBlockType) : CdgState :=
  { s with
    image := fun line col =>
      if t.top ≤ line ∧ line < t.top + 12 ∧ t.left ≤ col ∧ col < t.left + 6 then
        let sel := if t.tilePixels (line - t.top) / 2 ^ (5 - (col - t.left)) % 2 = 1
          then t.color1 else t.color0
        match ty with
        | TileBlockType.normal => sel
        | TileBlockType.xorMode => Nat.xor (s.image line col) sel
      else s.image line col,
    needupdate := true }

/-- CdgParser::cmdColors: walk the 8 decoded colors; whenever one differs from
the current palette entry, store it and set m_needupdate.  `base` is 0 for the
low table and 8 for the high table. -/
def cmdColors (s : CdgState) (cols : Nat → Nat) (base : Nat) : CdgState :=
  (List.range 8).foldl
    (fun st j =>
      if st.colorTable (base + j) ≠ cols j then
        { st with
          colorTable := fun i => if i = base + j then cols j else st.colorTable i,
          needupdate := true }
      else st)
    s

/-- Horizontal scroll left by 6 pixels (hSCmd == 2): each of the 216 scanlines
is shifted left (columns 0..293 take the old columns 6..299); in Copy mode the
saved old columns 0..5 reappear at 294..299, in Preset mode the memset lands
at byte offset m_borderLRBytes = 6, so columns 6..11 get the fill color while
columns 294..299 are left holding the stale old bytes 294..299.  The
overlapping memcpys of the source are modelled as copies reading the
pre-shift buffer. -/
def hShiftLeft (ty : ScrollType) (color : Nat) (img : Nat → Nat → Nat) :
    Nat → Nat → Nat :=
  fun line col =>
    if line < 216 ∧ col < 300 then
      if col < 294 then
        if ty = ScrollType.preset ∧ 6 ≤ col ∧ col < 12 then color
        else img line (col + 6)
      else
        if ty = ScrollType.copy then img line (col - 294) else img line col
    else img line col

/-- Horizontal scroll right by 6 pixels (hSCmd == 1): columns 6..299 take the
old columns 0..293; in Copy mode columns 0..5 get the saved old columns
294..299, in Preset mode they get the fill color. -/
def hShiftRight (ty : ScrollType) (color : Nat) (img : Nat → Nat → Nat) :
    Nat → Nat → Nat :=
  fun line col =>
    if line < 216 ∧ col < 300 then
      if col < 6 then
        if ty = ScrollType.copy then img line (col + 294) else color
      else img line (col - 6)
    else img line col

/-- Vertical scroll up by 12 lines (vSCmd == 2): lines 0..203 take the old
lines 12..215; Copy puts the saved old lines 0..11 at 204..215, Preset fills
them with the color. -/
def vShiftUp (ty : ScrollType) (color : Nat) (img : Nat → Nat → Nat) :
    Nat → Nat → Nat :=
  fun line col =>
    if line < 216 ∧ col < 300 then
      if line < 204 then img (line + 12) col
      else
        if ty = ScrollType.copy then img (line - 204) col else color
    else img line col

/-- Vertical scroll down by 12 lines (vSCmd == 1): lines 12..215 take the old
lines 0..203; Copy puts the saved old lines 204..215 at 0..11, Preset fills
them with the color. -/
def vShiftDown (ty : ScrollType) (color : Nat) (img : Nat → Nat → Nat) :
    Nat → Nat → Nat :=
  fun line col =>
    if line < 216 ∧ col < 300 then
      if line < 12 then
        if ty = ScrollType.copy then img (line + 204) col else color
      else img (line - 12) col
    else img line col

/-- CdgParser::cmdScroll: the four shift blocks run in source order
(h left, h right, v up, v down), then the fine offsets are written:
m_curHOffset is assigned only under the guard
`if (m_curVOffset != scrollCmdData.vSOffset)` while m_curVOffset is assigned
unconditionally; m_needupdate is set. -/
def cmdScroll (s : CdgState) (d : ScrollData) (ty : ScrollType) : CdgState :=
  let img1 := if d.hSCmd = 2 then hShiftLeft ty d.color s.image else s.image
  let img2 := if d.hSCmd = 1 then hShiftRight ty d.color img1 else img1
  let img3 := if d.vSCmd = 2 then vShiftUp ty d.color img2 else img2
  let img4 := if d.vSCmd = 1 then vShiftDown ty d.color img3 else img3
  { s with
    image := img4,
    curHOffset := if s.curVOffset ≠ d.vSOffset then d.hSOffset else s.curHOffset,
    curVOffset := d.vSOffset,
    needupdate := true }

/-- Modelled from the spec: the payload decodes live in the missing header
libCDG.h (struct cdg::CdgScrollCmdData).  Per spec section 4.7 the payload
yields color (low 4 bits of byte 0), hSCmd and hSOffset (bits 4-5 and 0-2 of
byte 1), vSCmd and vSOffset (bits 4-5 and 0-3 of byte 2). -/
def decodeScroll (p : Packet) : ScrollData where
  color := p.data 0 % 16
  hSCmd := p.data 1 / 16 % 4
  hSOffset := p.data 1 % 8
  vSCmd := p.data 2 / 16 % 4
  vSOffset := p.data 2 % 16

/-- Modelled from the spec: struct cdg::CdgTileBlockData is in the missing
header libCDG.h.  Per spec section 4.5: color0 and color1 are the low 4 bits
of bytes 0 and 1, the tile is placed at (column*6, row*12) with row and
column the low 5 bits of bytes 2 and 3, and the 12 tile rows are the low
6 bits of bytes 4..15. -/
def decodeTileBlock (p : Packet) : TileBlockData where
  color0 := p.data 0 % 16
  color1 := p.data 1 % 16
  top := p.data 2 % 32 * 12
  left := p.data 3 % 32 * 6
  tilePixels := fun y => p.data (4 + y) % 64

/-- Modelled from the spec: struct cdg::CdgColorsData is in the missing header
libCDG.h.  Per spec section 4.6 each of the 8 entries occupies two payload
bytes b0, b1 with r = ((b0 >> 2) & 0x0F) * 17,
g = (((b0 & 0x03) << 2) | ((b1 >> 6) & 0x03)) * 17 and the remaining blue
nibble b = (b1 & 0x0F) * 17, widened to a QRgb value. -/
def decodeColors (p : Packet) (j : Nat) : Nat :=
  let b0 := p.data (2 * j)
  let b1 := p.data (2 * j + 1)
  qRgb (b0 / 4 % 16 * 17) ((b0 % 4 * 4 + b1 / 64 % 4) * 17) (b1 % 16 * 17)

/-- The switch of CdgParser::readCdgSubcodePacket: dispatch on
(instruction & 0x3F) (on bytes, & 0x3F is % 64) to the handlers for opcodes
1, 2, 6, 20, 24, 28, 30, 31 of the spec dispatch table plus the XOR tile
opcode 38 handled by the same switch; any other opcode falls through.  The
`m_lastCmdWasMempreset = true` assignment inside the memory-preset case is
omitted here because the assignment after the switch (see
`readCdgSubcodePacket`) overwrites it on every path. -/
def dispatchSwitch (s : CdgState) (p : Packet) : CdgState :=
  let inst := p.instruction % 64
  if inst = 1 then cmdMemoryPreset s (p.data 0 % 16) (p.data 1 % 16)
  else if inst = 2 then cmdBorderPreset s (p.data 0 % 16)
  else if inst = 6 then cmdTileBlock s (decodeTileBlock p) TileBlockType.normal
  else if inst = 20 then cmdScroll s (decodeScroll p) ScrollType.preset
  else if inst = 24 then cmdScroll s (decodeScroll p) ScrollType.copy
  else if inst = 28 then s
  else if inst = 30 then cmdColors s (decodeColors p) 0
  else if inst = 31 then cmdColors s (decodeColors p) 8
  else if inst = 38 then cmdTileBlock s (decodeTileBlock p) TileBlockType.xorMode
  else s

/-- CdgParser::readCdgSubcodePacket: drop the packet unless
(command & 0x3F) == 0x09 (m_subcodeMask = 0x3F, m_subcodeCommand = 0x09 per
spec section 3), run the switch, and then execute
`m_lastCmdWasMempreset = (subCode.instruction == cdg::CmdMemoryPreset)`,
which compares the UNMASKED instruction byte with 1. -/
def readCdgSubcodePacket (s : CdgState) (p : Packet) : CdgState :=
  if p.command % 64 ≠ 9 then s
  else { dispatchSwitch s p with lastCmdWasMempreset := p.instruction == 1 }

/-- CdgParser::getSafeArea composed with convertToFormat(Format_RGB32): the
288x192 output pixel (x, y) is the palette entry of the framebuffer byte at
line 12 + y + m_curVOffset, column 6 + m_curHOffset + x (the source copies
288 bytes per line starting at m_borderLRBytes + m_curHOffset). -/
def safeAreaImage (s : CdgState) : Nat → Nat → Nat :=
  fun y x => s.colorTable (s.image (12 + y + s.curVOffset) (6 + s.curHOffset + x))

/-- One iteration of the while loop in CdgParser::process: clear m_needupdate,
run the dispatcher, record m_lastCDGCommandMS = frameno * 40 when the packet
marked an update (the local frameno equals m_frames.size() in the
open-then-process lifecycle), advance m_position, and on a 40 ms boundary
(position() % 40 == 0 and position() >= 40) append !m_needupdate to m_skip
and the safe-area snapshot, stamped with position(), to m_frames. -/
def stepPacket (s : CdgState) (p : Packet) : CdgState :=
  let s2 := readCdgSubcodePacket { s with needupdate := false } p
  let s3 := if s2.needupdate then { s2 with lastCDGCommandMS := s2.frames.length * 40 } else s2
  let s4 := { s3 with position := s3.position + 1 }
  if positionMs s4 % 40 = 0 ∧ 40 ≤ positionMs s4 then
    { s4 with
      skip := s4.skip ++ [!s4.needupdate],
      frames := s4.frames ++ [{ image := safeAreaImage s4, startTime := positionMs s4 }] }
  else s4

/-- CdgParser::process on an input already sliced into its 24-byte packets:
fold the packet loop over the stored data, then clear m_cdgData
(m_cdgData.clear()) and set m_isOpen. -/
def process (pkts : List Packet) (s : CdgState) : CdgState :=
  let s1 := pkts.foldl stepPacket s
  { s1 with cdgDataSize := 0, isOpen := true }

/-- CdgParser::videoFrameByTime: frameno is the double expression
(ms * ((float)m_tempo / 100.0)) / 40 truncated to size_t (floatFrameIndex),
incremented when the UNSCALED ms is not a multiple of 40; if
frameno >= m_frames.size() the source returns
m_frames.at(m_frames.size() - 1), where the size_t subtraction wraps modulo
2^64 on an empty vector; at on an out-of-range index is `none`. -/
def videoFrameByTime (s : CdgState) (ms : Nat) : Option Frame :=
  let fr0 := floatFrameIndex s.tempo ms
  let frameno := if ms % 40 > 0 then fr0 + 1 else fr0
  if s.frames.length ≤ frameno then
    s.frames.get? ((s.frames.length + 18446744073709551615) % 18446744073709551616)
  else
    s.frames.get? frameno

/-- CdgParser::canSkipFrameByTime: scaledMs = (int)(ms * ((float)m_tempo /
100.0)) (floatScaledMs), frameno = scaledMs / 40 in integer division,
incremented when the unscaled ms is not a multiple of 40; returns false when
frameno > m_frames.size(); otherwise reads the skip flags at frameno - 1
(a size_t subtraction that wraps at frameno = 0), frameno and frameno + 1,
and returns their conjunction; an out-of-range read is `none`. -/
def canSkipFrameByTime (s : CdgState) (ms : Nat) : Option Bool :=
  let frameno0 := floatScaledMs s.tempo ms / 40
  let frameno := if ms % 40 > 0 then frameno0 + 1 else frameno0
  if s.frames.length < frameno then some false
  else
    match s.skip.get? ((frameno + 18446744073709551615) % 18446744073709551616),
        s.skip.get? frameno, s.skip.get? (frameno + 1) with
    | some a, some b, some c => some (a && b && c)
    | _, _, _ => none

/-- The frame index the specification section 4.11 prescribes for frame_at:
the ceiling of ms * (tempo / 100) / 40, as an exact rational ceiling. -/
def specFrameIndex (tempo ms : Nat) : Nat :=
  (ms * tempo + 3999) / 4000

/-- A packet that is not a CDG command (command byte 0): the dispatcher drops
it, but it still advances the stream position. -/
def nullPkt : Packet where
  command := 0
  instruction := 0
  data := fun _ => 0

/-- A Memory Preset packet: command 9, instruction 1, color 3, repeat 0. -/
def memPresetPkt : Packet where
  command := 9
  instruction := 1
  data := fun i => if i = 0 then 3 else 0

/-- A Scroll Preset packet (instruction 20) whose payload requests no coarse
shift, hSOffset = 3 and vSOffset = 0 (byte 1 = 0x03, byte 2 = 0x00). -/
def scrollPkt : Packet where
  command := 9
  instruction := 20
  data := fun i => if i = 1 then 3 else 0

/-- A Memory Preset arriving with upper instruction bits set: instruction byte
0x41 = 65, masked opcode 65 % 64 = 1; color 3, repeat 1. -/
def mpPktHighBits : Packet where
  command := 9
  instruction := 65
  data := fun i => if i = 0 then 3 else if i = 1 then 1 else 0

/-- A plain Memory Preset packet with color 5 and repeat 1. -/
def mpPktRepeat : Packet where
  command := 9
  instruction := 1
  data := fun i => if i = 0 then 5 else if i = 1 then 1 else 0

/-- A 12-packet (288-byte) input: one Memory Preset followed by 11 non-CDG
packets; exactly one 40 ms frame boundary falls at its end. -/
def windowInput : List Packet :=
  memPresetPkt :: List.replicate 11 nullPkt

/-- A frame with the all-zero pixel function and the given start time. -/
def mkFrame (t : Nat) : Frame where
  image := fun _ _ => 0
  startTime := t

/-- A processed-decoder state holding three frames (start times 40, 80, 120)
all marked skippable, at default tempo 100. -/
def threeFrameState : CdgState :=
  { initState with
    isOpen := true
    frames := [mkFrame 40, mkFrame 80, mkFrame 120]
    skip := [true, true, true] }

/-- The same three-frame state with the tempo set to 200 percent. -/
def threeFrameState200 : CdgState :=
  { threeFrameState with tempo := 200 }

/-- C1: the claim says that after the coarse shifts every Scroll Preset or
Scroll Copy command sets hOffset = hSOffset and vOffset = vSOffset
unconditionally.  The code guards the hOffset assignment behind
`if (m_curVOffset != scrollCmdData.vSOffset)`: processing a scroll packet with
hSOffset = 3 and vSOffset equal to the current vOffset leaves hOffset at 0
instead of setting it to 3, while vOffset is indeed written. -/
theorem scroll_hOffset_not_updated :
    (decodeScroll scrollPkt).hSOffset = 3 ∧
    (decodeScroll scrollPkt).vSOffset = initState.curVOffset ∧
    (readCdgSubcodePacket initState scrollPkt).curHOffset = 0 ∧
    (readCdgSubcodePacket initState scrollPkt).curVOffset = 0 := by
  decide

/-- C3: the claim says duration() returns packet_count * 40 / 12 ms after
process(); on the 288-byte (12-packet) input that would be 40 ms, but
process() clears m_cdgData and duration() returns m_cdgData.size() * 40,
so it returns 0. -/
theorem duration_zero_after_process :
    duration (process windowInput (openState 288)) = 0 ∧
    288 * 40 / (24 * 12) = 40 := by
  decide

/-- C5: the claim says canSkipFrameByTime never reads a skip flag out of
bounds.  At ms = 0 the code computes frameno = 0, passes the
`frameno > m_frames.size()` guard, and reads m_skip.at(frameno - 1) where the
size_t subtraction wraps to 2^64 - 1: an out-of-range access (none), even
though every stored skip flag is true. -/
theorem canSkip_out_of_bounds_at_zero :
    canSkipFrameByTime threeFrameState 0 = none ∧
    threeFrameState.skip = [true, true, true] := by
  decide

set_option maxRecDepth 10000 in
/-- C2: the claim says skip[i] is true only if no command in the 40 ms window
caused a visible change.  On the 12-packet input whose first packet is a
Memory Preset (which fills the framebuffer with 3, a visible change, from the
all-zero reset image) followed by 11 non-CDG packets, the loop resets
m_needupdate at the top of EVERY iteration, so at the boundary it reflects
only the final packet and skip[0] is recorded as true. -/
theorem skip_true_despite_change_in_window :
    (process windowInput (openState 288)).skip = [true] ∧
    (stepPacket (openState 288) memPresetPkt).image 0 0 = 3 ∧
    (openState 288).image 0 0 = 0 ∧
    (stepPacket (openState 288) memPresetPkt).needupdate = true := by
  decide

/-- C6: the claim says a Memory Preset whose predecessor dispatched command
was also a Memory Preset is skipped when repeat is nonzero.  The flag
comparison `subCode.instruction == cdg::CmdMemoryPreset` uses the unmasked
instruction byte: a Memory Preset dispatched via instruction byte 0x41
(masked opcode 1) leaves the flag false, so the next Memory Preset with
repeat = 1 refills the framebuffer (3 becomes 5) instead of being skipped. -/
theorem memory_preset_repeat_not_skipped :
    mpPktHighBits.instruction % 64 = 1 ∧
    mpPktRepeat.instruction % 64 = 1 ∧
    mpPktRepeat.data 1 % 16 = 1 ∧
    ¬ (readCdgSubcodePacket (readCdgSubcodePacket initState mpPktHighBits) mpPktRepeat).image
      = (readCdgSubcodePacket initState mpPktHighBits).image := by
  refine ⟨by decide, by decide, by decide, ?_⟩
  intro h
  have e1 : (readCdgSubcodePacket (readCdgSubcodePacket initState mpPktHighBits)
      mpPktRepeat).image 0 0 = 5 := by decide
  have e2 : (readCdgSubcodePacket initState mpPktHighBits).image 0 0 = 3 := by decide
  rw [h] at e1
  exact absurd (e1.symm.trans e2) (by decide)

set_option maxRecDepth 10000 in
/-- C4: the claim says frame_at(ms) returns the frame at index
ceil(ms * tempo_factor / 40).  At tempo 200 and ms = 20 the double arithmetic
is exact: the code computes floor(20 * 2 / 40) = 1 and then increments
because the UNSCALED 20 % 40 is nonzero, returning the frame at index 2
(start time 120), while ceil(20 * 2 / 40) = 1 names the frame with start
time 80. -/
theorem frame_at_differs_from_spec_index :
    ¬ videoFrameByTime threeFrameState200 20
      = threeFrameState200.frames.get? (specFrameIndex threeFrameState200.tempo 20) := by
  intro h
  have e1 : (videoFrameByTime threeFrameState200 20).map Frame.startTime = some 120 := by
    decide
  have e2 : (threeFrameState200.frames.get?
      (specFrameIndex threeFrameState200.tempo 20)).map Frame.startTime = some 80 := by
    decide
  rw [h, e2] at e1
  exact absurd e1 (by decide)

/-- C10: on a decoder whose frame sequence is empty, every frameno satisfies
frameno >= m_frames.size() = 0, so videoFrameByTime takes the past-the-end
branch and accesses m_frames.at(0 - 1), an out-of-range access on the empty
vector (none) instead of returning a frame. -/
theorem frame_at_empty_frames_out_of_range (s : CdgState) (ms : Nat)
    (h : s.frames = []) : videoFrameByTime s ms = none := by
  unfold videoFrameByTime
  rw [h]
  simp

/-- Witness for C10: after reset (no frames decoded) every lookup, here at
1234 ms, performs the out-of-range access. -/
theorem frame_at_empty_frames_out_of_range_witness :
    videoFrameByTime initState 1234 = none :=
  frame_at_empty_frames_out_of_range initState 1234 rfl

/-- C7: Border Preset writes the payload color to every pixel of the top 12
lines, the bottom 13 lines (203..215) and the left and right 6 columns of the
remaining lines, and leaves the interior columns 6..293 of lines 12..202
untouched. -/
theorem border_preset_pixels (s : CdgState) (c line col : Nat)
    (hline : line < 216) (hcol : col < 300) :
    (cmdBorderPreset s c).image line col =
      if line < 12 ∨ 202 < line ∨ col < 6 ∨ 293 < col then c
      else s.image line col := by
  unfold cmdBorderPreset
  simp only
  rw [if_pos ⟨hline, hcol⟩]
  by_cases h1 : line < 12 ∨ 202 < line
  · rw [if_pos h1, if_pos (by tauto)]
  · by_cases h2 : col < 6 ∨ 293 < col
    · rw [if_neg h1, if_pos h2, if_pos (by tauto)]
    · rw [if_neg h1, if_neg h2, if_neg (by tauto)]

/-- Witness for C7: border preset with color 7 on the reset state paints the
corner pixel (line 0, column 0). -/
theorem border_preset_pixels_witness :
    (cmdBorderPreset initState 7).image 0 0 =
      if (0 : Nat) < 12 ∨ 202 < (0 : Nat) ∨ (0 : Nat) < 6 ∨ 293 < (0 : Nat) then 7
      else initState.image 0 0 :=
  border_preset_pixels initState 7 0 0 (by decide) (by decide)

/-- A horizontal Copy scroll right by 6 undoes a horizontal Copy scroll left
by 6 on every cell. -/
theorem hShiftLeft_copy_apply (img : Nat → Nat → Nat) (c : Nat) (line col : Nat) :
    hShiftLeft ScrollType.copy c img line col =
      if line < 216 ∧ col < 300 then
        if col < 294 then img line (col + 6) else img line (col - 294)
      else img line col := by
  unfold hShiftLeft
  by_cases hb : line < 216 ∧ col < 300
  · rw [if_pos hb, if_pos hb]
    by_cases h294 : col < 294
    · rw [if_pos h294, if_pos h294, if_neg (fun hcontra => absurd hcontra.1 (by decide))]
    · rw [if_neg h294, if_neg h294, if_pos rfl]
  · rw [if_neg hb, if_neg hb]

set_option maxRecDepth 4096 in
theorem hShift_left_right_copy (img : Nat → Nat → Nat) (c1 c2 : Nat) :
    hShiftRight ScrollType.copy c2 (hShiftLeft ScrollType.copy c1 img) = img := by
  funext line col
  unfold hShiftRight
  by_cases hb : line < 216 ∧ col < 300
  · rw [if_pos hb]
    by_cases h6 : col < 6
    · rw [if_pos h6, if_pos rfl, hShiftLeft_copy_apply,
        if_pos (⟨hb.1, by omega⟩ : line < 216 ∧ col + 294 < 300), if_neg (by omega)]
      exact congrArg (img line) (by omega)
    · rw [if_neg h6, hShiftLeft_copy_apply,
        if_pos (⟨hb.1, by omega⟩ : line < 216 ∧ col - 6 < 300), if_pos (by omega)]
      exact congrArg (img line) (by omega)
  · rw [if_neg hb, hShiftLeft_copy_apply, if_neg hb]

/-- C9: a Scroll Copy command with horizontal shift left (hSCmd = 2, no
vertical shift) followed by a Scroll Copy command with horizontal shift right
(hSCmd = 1, no vertical shift) returns the framebuffer to its original
contents, for every starting framebuffer and any colors and fine offsets
carried by the two packets. -/
theorem scroll_copy_round_trip (s : CdgState) (c1 c2 ho1 ho2 vo1 vo2 : Nat) :
    (cmdScroll (cmdScroll s ⟨c1, 2, ho1, 0, vo1⟩ ScrollType.copy)
        ⟨c2, 1, ho2, 0, vo2⟩ ScrollType.copy).image = s.image := by
  show hShiftRight ScrollType.copy c2 (hShiftLeft ScrollType.copy c1 s.image) = s.image
  exact hShift_left_right_copy s.image c1 c2

/-- C4 (amended): with at least one decoded frame, frame_at(ms) returns the
frame at the index the source's floating-point computation produces: the
truncated binary64 value of (ms * ((float)tempo / 100.0)) / 40
(floatFrameIndex), incremented when the UNSCALED ms is not a multiple of 40,
clamped to the last frame.  At the default tempo 100 the computation is exact
and the index is ceil(ms / 40) for realistic ms, but for other tempos it
differs from ceil(ms * tempo_factor / 40): both through the unscaled
remainder test (tempo 200, ms 20: index 2, ceiling 1) and through binary64
rounding (tempo 115, ms 800: the double 22.999999999999998 truncates to 22
while the exact value is 23). -/
theorem frame_at_actual_index (s : CdgState) (ms : Nat)
    (h : s.frames.length ≠ 0) (h64 : s.frames.length < 18446744073709551616) :
    videoFrameByTime s ms =
      s.frames.get? (min (floatFrameIndex s.tempo ms + if ms % 40 > 0 then 1 else 0)
        (s.frames.length - 1)) := by
  simp only [videoFrameByTime]
  have hn : (if ms % 40 > 0 then floatFrameIndex s.tempo ms + 1 else floatFrameIndex s.tempo ms)
      = floatFrameIndex s.tempo ms + (if ms % 40 > 0 then 1 else 0) := by
    by_cases hm : ms % 40 > 0
    · rw [if_pos hm, if_pos hm]
    · rw [if_neg hm, if_neg hm, Nat.add_zero]
  rw [hn]
  set b := (if ms % 40 > 0 then 1 else 0) with hb
  set k := floatFrameIndex s.tempo ms with hk
  by_cases hle : s.frames.length ≤ k + b
  · rw [if_pos hle]
    have h1 : (s.frames.length + 18446744073709551615) % 18446744073709551616
        = s.frames.length - 1 := by omega
    have h2 : min (k + b) (s.frames.length - 1) = s.frames.length - 1 := by omega
    rw [h1, h2]
  · rw [if_neg hle]
    have h2 : min (k + b) (s.frames.length - 1) = k + b := by omega
    rw [h2]

/-- Witness for C4 (amended): at tempo 200 and ms = 20 the returned frame is
the one at the code's index min(2, 2) = 2. -/
theorem frame_at_actual_index_witness :
    videoFrameByTime threeFrameState200 20 =
      threeFrameState200.frames.get?
        (min (floatFrameIndex threeFrameState200.tempo 20 + if 20 % 40 > 0 then 1 else 0)
          (threeFrameState200.frames.length - 1)) :=
  frame_at_actual_index threeFrameState200 20 (by decide) (by decide)

/-- For a CDG packet, the flag left behind by the dispatcher compares the raw
unmasked instruction byte with 1. -/
theorem readPacket_lastMempreset (t : CdgState) (p : Packet)
    (hp : p.command % 64 = 9) :
    (readCdgSubcodePacket t p).lastCmdWasMempreset = (p.instruction == 1) := by
  simp [readCdgSubcodePacket, hp]

/-- A CDG packet whose masked opcode is 1 runs cmdMemoryPreset and then
overwrites the mem-preset flag with the unmasked comparison. -/
theorem readPacket_memPreset (t : CdgState) (q : Packet)
    (hq : q.command % 64 = 9) (hqi : q.instruction % 64 = 1) :
    readCdgSubcodePacket t q =
      { cmdMemoryPreset t (q.data 0 % 16) (q.data 1 % 16) with
        lastCmdWasMempreset := q.instruction == 1 } := by
  simp [readCdgSubcodePacket, dispatchSwitch, hq, hqi]

/-- C6 (amended): after a dispatched CDG packet p, a Memory Preset q (masked
opcode 1) is skipped exactly when p's RAW instruction byte equals 1 and q's
repeat nibble is nonzero; otherwise the whole 300x216 framebuffer is filled
with q's color nibble and a visible change is marked.  In particular a
Memory Preset dispatched through an instruction byte with upper bits set
(e.g. 0x41) does not arm the repeat skip. -/
theorem memory_preset_repeat_semantics (s : CdgState) (p q : Packet)
    (hp : p.command % 64 = 9) (hq : q.command % 64 = 9)
    (hqi : q.instruction % 64 = 1) :
    ((p.instruction = 1 ∧ q.data 1 % 16 ≠ 0) →
      (readCdgSubcodePacket (readCdgSubcodePacket s p) q).image
        = (readCdgSubcodePacket s p).image) ∧
    (¬ (p.instruction = 1 ∧ q.data 1 % 16 ≠ 0) →
      (∀ line col, line < 216 → col < 300 →
        (readCdgSubcodePacket (readCdgSubcodePacket s p) q).image line col
          = q.data 0 % 16) ∧
      (readCdgSubcodePacket (readCdgSubcodePacket s p) q).needupdate = true) := by
  have hflag := readPacket_lastMempreset s p hp
  rw [readPacket_memPreset (readCdgSubcodePacket s p) q hq hqi]
  constructor
  · rintro ⟨hp1, hr⟩
    show (cmdMemoryPreset (readCdgSubcodePacket s p) (q.data 0 % 16) (q.data 1 % 16)).image
      = (readCdgSubcodePacket s p).image
    unfold cmdMemoryPreset
    rw [if_pos ⟨by rw [hflag, hp1]; rfl, hr⟩]
  · intro hnot
    have hcond : ¬ ((readCdgSubcodePacket s p).lastCmdWasMempreset = true
        ∧ q.data 1 % 16 ≠ 0) := by
      rintro ⟨ha, hb⟩
      apply hnot
      refine ⟨?_, hb⟩
      rw [hflag] at ha
      simp only [beq_iff_eq] at ha
      exact ha
    constructor
    · intro line col hl hc
      show (cmdMemoryPreset (readCdgSubcodePacket s p) (q.data 0 % 16) (q.data 1 % 16)).image
          line col = q.data 0 % 16
      unfold cmdMemoryPreset
      rw [if_neg hcond]
      show (if line < 216 ∧ col < 300 then q.data 0 % 16
        else (readCdgSubcodePacket s p).image line col) = q.data 0 % 16
      rw [if_pos ⟨hl, hc⟩]
    · show (cmdMemoryPreset (readCdgSubcodePacket s p) (q.data 0 % 16) (q.data 1 % 16)).needupdate
        = true
      unfold cmdMemoryPreset
      rw [if_neg hcond]

/-- Witness for C6 (amended): two consecutive plain Memory Preset packets with
repeat 1; the second is skipped and the framebuffer is untouched. -/
theorem memory_preset_repeat_semantics_witness :
    (readCdgSubcodePacket (readCdgSubcodePacket initState mpPktRepeat) mpPktRepeat).image
      = (readCdgSubcodePacket initState mpPktRepeat).image :=
  (memory_preset_repeat_semantics initState mpPktRepeat mpPktRepeat
      (by decide) (by decide) (by decide)).1 ⟨by decide, by decide⟩

/-- C8: the claimed cadence (one frame per full 12-packet window, frame i
stamped (i + 1) * 40 ms) fails on large well-formed inputs because position()
stores the stream time in a binary32 float.  At packet 20,132,663 the exact
stream time is 67,108,876.67 ms (exact floor 67,108,876, not a multiple of
40), but the float rounds it to 67,108,880, a multiple of 40, so the process
loop's boundary test fires and appends a spurious frame even though
20,132,663 is not a multiple of 12: the packet iteration at that position
grows the frame sequence although the claim's frame count floor(n / 12) does
not grow there. -/
theorem position_float_spurious_frame :
    (stepPacket { initState with position := 20132662 } nullPkt).frames.length = 1 ∧
    initState.frames.length = 0 ∧
    positionFloatMs 20132663 = 67108880 ∧
    67108880 % 40 = 0 ∧
    20132663 % 12 = 11 ∧
    20132663 * 1000 / 300 = 67108876 ∧
    67108876 % 40 = 36 := by
  decide

end LibCDG
